import Mathlib

/-!
Verification of `respy/unit_base/auxil.pyx` (unit-expression parsing,
decomposition and dimension inference).

The module under verification delegates its algebra to the external sympy
engine, which the specification explicitly excludes as an opaque collaborator.
We therefore shallowly embed the fragment of sympy the module touches:

* `SymExpr` is the immutable expression tree (numeric literal, unit quantity,
  power, n-ary product, n-ary sum).  The discriminant checks of the source
  (`'Pow' in str(type(expr))`, `'Mul' in str(type(expr))`,
  `'Quantity' in str(type(unit))`) are modelled by matching on the
  corresponding constructor: the sympy class names `Pow`, `Mul`, `Add`,
  `Quantity` and the numeric classes are pairwise non-overlapping as
  substrings of each other's fully qualified names.
* Engine equality (`==` between sympy expressions) is modelled by comparing
  monomial normal forms (coefficient together with a sorted exponent vector),
  which is exactly sympy's equality on the products / powers of quantities
  and numbers this module manipulates; expressions outside that fragment fall
  back to structural equality.
* Python / sympy numeric scalars (ints and the exactly representable floats
  such as `5.0`, `3.0` occurring in the specification) are modelled by the
  exact rational pair type `Q`; `float(value)` on a sympy object succeeds
  precisely on numeric literals and raises `TypeError` on symbolic ones,
  which `toFloat?` reflects by returning an `Option`.

All functions are computable and every concrete evaluation below is checked
by kernel reduction.
-/

/-- Exact rational scalar: numerator and (positive in all reachable values)
denominator, deliberately kept unreduced; numeric equality is the
cross-multiplication test `qEq`.  Models Python/sympy numbers. -/
structure Q where
  num : ℤ
  den : ℕ
deriving DecidableEq

/-- Embed an integer scalar. -/
def qOfInt (n : ℤ) : Q := ⟨n, 1⟩

/-- Product of two scalars. -/
def qMul (a b : Q) : Q := ⟨a.num * b.num, a.den * b.den⟩

/-- Numeric equality of two scalars (cross multiplication). -/
def qEq (a b : Q) : Bool := a.num * (b.den : ℤ) = b.num * (a.den : ℤ)

/-- Integer power with natural exponent. -/
def intPow (b : ℤ) : ℕ → ℤ
  | 0 => 1
  | n + 1 => b * intPow b n

/-- Natural power with natural exponent. -/
def natPow (b : ℕ) : ℕ → ℕ
  | 0 => 1
  | n + 1 => b * natPow b n

/-- Scalar power with natural exponent. -/
def qPowNat (q : Q) (n : ℕ) : Q := ⟨intPow q.num n, natPow q.den n⟩

/-- Scalar inverse. -/
def qInv (q : Q) : Q :=
  if 0 ≤ q.num then ⟨(q.den : ℤ), q.num.toNat⟩ else ⟨-(q.den : ℤ), q.num.natAbs⟩

/-- Scalar power with integer exponent. -/
def qPowInt (q : Q) : ℤ → Q
  | .ofNat n => qPowNat q n
  | .negSucc n => qInv (qPowNat q (n + 1))

/-- Does the scalar denote an integer? -/
def qIsInt (q : Q) : Bool := q.den ≠ 0 && q.num % (q.den : ℤ) = 0

/-- The integer denoted by an integral scalar. -/
def qToInt (q : Q) : ℤ := q.num / (q.den : ℤ)

/-- Physical-dimension tags (the external constants `length`, `area`,
`volume`, `Zero`, `One` of `respy.units.dimensions` / `respy.units.util`,
plus the `time` dimension carried by `second`). -/
inductive Dim
  | length
  | time
  | area
  | volume
  | zero
  | one
deriving DecidableEq

/-- Immutable sympy expression tree.  A `quantity` carries the optional
physical-dimension attribute that `unit.dimension` exposes (absence models an
`AttributeError` on access). -/
inductive SymExpr
  | num (q : Q)
  | quantity (name : String) (dimension : Option Dim)
  | pow (base exp : SymExpr)
  | mul (args : List SymExpr)
  | add (args : List SymExpr)

/-- Monomial normal form of a multiplicative sympy expression: a scalar
coefficient and a name-sorted list of (base quantity, integer exponent)
pairs with non-zero exponents. -/
structure Monomial where
  coeff : Q
  exps : List (String × ℤ)

/-- Insert one (base, exponent) pair into a sorted exponent vector, adding
exponents of equal bases and dropping a resulting zero exponent. -/
def insertExp (p : String × ℤ) : List (String × ℤ) → List (String × ℤ)
  | [] => [p]
  | q :: qs =>
    match compare p.1 q.1 with
    | .lt => p :: q :: qs
    | .gt => q :: insertExp p qs
    | .eq => if p.2 + q.2 = 0 then qs else (p.1, p.2 + q.2) :: qs

/-- Merge two exponent vectors. -/
def mergeExps (l1 l2 : List (String × ℤ)) : List (String × ℤ) := l1.foldr insertExp l2

/-- Multiply every exponent by `k` (an empty vector for `k = 0`). -/
def scaleExps (k : ℤ) (l : List (String × ℤ)) : List (String × ℤ) :=
  if k = 0 then [] else l.map (fun p => (p.1, p.2 * k))

/-- Product of two monomials. -/
def mulMono (m1 m2 : Monomial) : Monomial :=
  ⟨qMul m1.coeff m2.coeff, mergeExps m1.exps m2.exps⟩

/-- Equality of monomials (numeric equality of coefficients, structural
equality of the canonical exponent vectors). -/
def monoEq (m1 m2 : Monomial) : Bool := qEq m1.coeff m2.coeff && m1.exps = m2.exps

mutual

/-- Monomial normal form of an expression, defined on the multiplicative
fragment (numbers, quantities, products, powers with integral numeric
exponents) and undefined (`none`) outside it. -/
def norm : SymExpr → Option Monomial
  | .num q => some ⟨q, []⟩
  | .quantity n _ => some ⟨qOfInt 1, [(n, 1)]⟩
  | .pow b e => do
    let mb ← norm b
    let me ← norm e
    if me.exps = [] ∧ qIsInt me.coeff then
      some ⟨qPowInt mb.coeff (qToInt me.coeff), scaleExps (qToInt me.coeff) mb.exps⟩
    else
      none
  | .mul args => normList args
  | .add _ => none

/-- Monomial normal form of a product's argument list. -/
def normList : List SymExpr → Option Monomial
  | [] => some ⟨qOfInt 1, []⟩
  | a :: as => do
    let m ← norm a
    let ms ← normList as
    some (mulMono m ms)

end

mutual

/-- Structural equality of expression trees. -/
def eqbE : SymExpr → SymExpr → Bool
  | .num q1, .num q2 => q1 = q2
  | .quantity n1 d1, .quantity n2 d2 => n1 = n2 && d1 = d2
  | .pow b1 e1, .pow b2 e2 => eqbE b1 b2 && eqbE e1 e2
  | .mul l1, .mul l2 => eqbL l1 l2
  | .add l1, .add l2 => eqbL l1 l2
  | _, _ => false

/-- Structural equality of argument lists. -/
def eqbL : List SymExpr → List SymExpr → Bool
  | [], [] => true
  | a :: as, b :: bs => eqbE a b && eqbL as bs
  | _, _ => false

end

/-- Engine equality of two expressions (sympy `==`): equality of monomial
normal forms on the multiplicative fragment, structural equality elsewhere. -/
def symEq (a b : SymExpr) : Bool :=
  match norm a, norm b with
  | some m1, some m2 => monoEq m1 m2
  | _, _ => eqbE a b

/-- Engine multiplication `a * b`. -/
def engMul (a b : SymExpr) : SymExpr := .mul [a, b]

/-- Engine division `a / b`, which sympy builds as `a * b ** -1`. -/
def engDiv (a b : SymExpr) : SymExpr := .mul [a, .pow b (.num (qOfInt (-1)))]

/-- Engine addition `a + b`. -/
def engAdd (a b : SymExpr) : SymExpr := .add [a, b]

/-- Engine subtraction `a - b`, which sympy builds as `a + (-1) * b`. -/
def engSub (a b : SymExpr) : SymExpr := .add [a, .mul [.num (qOfInt (-1)), b]]

/-- Engine exponentiation `a ** b`. -/
def engPow (a b : SymExpr) : SymExpr := .pow a b

/-- Modelled from the spec: the unit registry `__UNITS__` lives in the
excluded module `respy.units.util`; per the specification it maps the unit
name "m" to the length quantity `meter`. -/
def meter : SymExpr := .quantity "meter" (some .length)

/-- Modelled from the spec: per the specification the registry maps the unit
name "s" to the time quantity `second`. -/
def second : SymExpr := .quantity "second" (some .time)

/-- Modelled from the spec: the registry `__UNITS__` as an association list,
externally owned and read-only, with the two bindings the specification
names ("m" is meter, "s" is second). -/
def __UNITS__ : List (String × SymExpr) := [("m", meter), ("s", second)]

/-- The constant operator list of `auxil.pyx` (line 18). -/
def __OPERATION_LIST__ : List String := ["*", "/", "+", "-", "**"]

/-- Split a character stream into maximal whitespace-free words
(the behaviour of Python's `str.split()` with no separator). -/
def wordsAux : List Char → List Char → List (List Char)
  | [], cur => if cur.isEmpty then [] else [cur.reverse]
  | c :: cs, cur =>
    if c.isWhitespace then
      if cur.isEmpty then wordsAux cs [] else cur.reverse :: wordsAux cs []
    else
      wordsAux cs (c :: cur)

/-- Tokenize a unit string on whitespace (`unit.split()`, line 60). -/
def tokenize (s : String) : List String := (wordsAux s.data []).map String.mk

/-- Value of a non-empty all-digit character list. -/
def digitsValAux : List Char → ℕ → Option ℕ
  | [], acc => some acc
  | c :: cs, acc =>
    if c.isDigit then digitsValAux cs (acc * 10 + (c.toNat - 48)) else none

/-- Value of a non-empty all-digit character list (none when empty or when a
non-digit occurs). -/
def digitsVal : List Char → Option ℕ
  | [] => none
  | l => digitsValAux l 0

/-- Python's `int(item)` on a whitespace-free token: an optional sign
followed by at least one digit; `none` models the `ValueError` branch
(line 73). -/
def parseInt? (s : String) : Option ℤ :=
  match s.data with
  | '-' :: rest => (digitsVal rest).map (fun n => -(n : ℤ))
  | '+' :: rest => (digitsVal rest).map (fun n => (n : ℤ))
  | l => (digitsVal l).map (fun n => (n : ℤ))

/-- An entry of the source's `unit_list`: either a plain Python integer
(token parsed by `int`) or a sympy unit object from the registry. -/
inductive UVal
  | int (n : ℤ)
  | expr (e : SymExpr)

/-- Errors of the resolver: `UnitError` with its message, a Python
`IndexError` (out-of-bounds list indexing), or a Python
`ZeroDivisionError` (plain-integer division by zero, or a negative power
of the plain integer zero, inside the reduction loop — neither is caught
by the `except IndexError` at line 95). -/
inductive ResolveErr
  | unitError (msg : String)
  | indexError
  | zeroDivisionError
deriving DecidableEq

/-- Registry lookup `__UNITS__[item]` (`none` models the `KeyError` branch,
line 77). -/
def lookupReg : List (String × SymExpr) → String → Option SymExpr
  | [], _ => none
  | (k, v) :: rest, name => if k = name then some v else lookupReg rest name

/-- The token-classification loop of `get_unit_from_str` (lines 64-78):
operators are pushed onto the operator sequence, integer literals and
registry hits onto the operand sequence, and an unknown token raises
`UnitError` naming it. -/
def classifyTokens (reg : List (String × SymExpr)) :
    List String → Except ResolveErr (List UVal × List String)
  | [] => .ok ([], [])
  | t :: ts =>
    if __OPERATION_LIST__.contains t then
      match classifyTokens reg ts with
      | .error e => .error e
      | .ok (us, os) => .ok (us, t :: os)
    else
      match parseInt? t with
      | some n =>
        match classifyTokens reg ts with
        | .error e => .error e
        | .ok (us, os) => .ok (.int n :: us, os)
      | none =>
        match lookupReg reg t with
        | some u =>
          match classifyTokens reg ts with
          | .error e => .error e
          | .ok (us, os) => .ok (.expr u :: us, os)
        | none => .error (.unitError (t ++ " is not a valid unit."))

/-- Convert a loop value to a sympy expression (Python/sympy coercion of a
plain int occurring in a mixed arithmetic operation). -/
def toExprU : UVal → SymExpr
  | .int n => .num (qOfInt n)
  | .expr e => e

/-- One combination step of the reduction loop (lines 85-94): dispatch on
the operator token; between two plain ints Python integer arithmetic applies
— true division by zero and a negative power of zero raise
`ZeroDivisionError` (which `except IndexError` does not catch), the other
numeric results are plain numbers modelled exactly.  When either side is a
sympy expression the engine operators apply and never raise (sympy division
by the integer zero yields the `zoo`-multiple expression, not an
exception).  An operator token outside the five-element list falls through
the `elif` chain leaving the accumulator unchanged. -/
def applyOp (op : String) (a b : UVal) : Except ResolveErr UVal :=
  match a, b with
  | .int m, .int n =>
    if op = "*" then .ok (.int (m * n))
    else if op = "/" then
      if n = 0 then .error .zeroDivisionError
      else .ok (.expr (.num (qMul (qOfInt m) (qInv (qOfInt n)))))
    else if op = "+" then .ok (.int (m + n))
    else if op = "-" then .ok (.int (m - n))
    else if op = "**" then
      if 0 ≤ n then .ok (.int (intPow m n.toNat))
      else if m = 0 then .error .zeroDivisionError
      else .ok (.expr (.num (qPowInt (qOfInt m) n)))
    else .ok a
  | _, _ =>
    if op = "*" then .ok (.expr (engMul (toExprU a) (toExprU b)))
    else if op = "/" then .ok (.expr (engDiv (toExprU a) (toExprU b)))
    else if op = "+" then .ok (.expr (engAdd (toExprU a) (toExprU b)))
    else if op = "-" then .ok (.expr (engSub (toExprU a) (toExprU b)))
    else if op = "**" then .ok (.expr (engPow (toExprU a) (toExprU b)))
    else .ok a

/-- The reduction loop of `get_unit_from_str` (lines 82-96): the accumulator
is seeded with the first operand and combined with the operand at index `i`
using the operator at index `i - 1`; an out-of-range operator index (the
`IndexError` caught by the `try`/`except` around the chain) skips the step
and the loop continues, while an arithmetic error of an in-range step
(`ZeroDivisionError`, which the `except IndexError` does not catch)
propagates out of the loop. -/
def reduceUnits (ops : List String) : UVal → List UVal → ℕ → Except ResolveErr UVal
  | acc, [], _ => .ok acc
  | acc, item :: rest, i =>
    match ops[i - 1]? with
    | some op =>
      match applyOp op acc item with
      | .error e => .error e
      | .ok acc2 => reduceUnits ops acc2 rest (i + 1)
    | none => reduceUnits ops acc rest (i + 1)

/-- `get_unit_from_str` (lines 41-98): tokenize, classify every token, read
the first operand (`unit_list[0]`, line 80 — an uncaught `IndexError` when
no operand was collected), then run the reduction loop. -/
def get_unit_from_str (reg : List (String × SymExpr)) (unit : String) :
    Except ResolveErr UVal :=
  match classifyTokens reg (tokenize unit) with
  | .error e => .error e
  | .ok (unit_list, operand_list) =>
    match unit_list with
    | [] => .error .indexError
    | u0 :: rest => reduceUnits operand_list u0 rest 1

/-- The possible inputs of `get_unit` (lines 227-246): a sympy expression,
a string, a member of the external no-unit sentinel collection
`__NONE_UNITS__` (e.g. `None`), or a value of any other kind (carrying its
printed form for the error message). -/
inductive UnitInput
  | expr (e : SymExpr)
  | str (s : String)
  | noneUnit
  | other (descr : String)

/-- The possible results of `get_unit`: a sympy expression, a plain Python
integer (a purely numeric unit string), or the external constant `Zero`
returned for no-unit sentinels. -/
inductive UnitObj
  | int (n : ℤ)
  | expr (e : SymExpr)
  | zero

/-- `get_unit` (lines 227-246): identity on sympy expressions, string
resolution through `get_unit_from_str`, `Zero` for no-unit sentinels, and
`UnitError` otherwise. -/
def get_unit (reg : List (String × SymExpr)) : UnitInput → Except ResolveErr UnitObj
  | .expr e => .ok (.expr e)
  | .str s =>
    match get_unit_from_str reg s with
    | .error e => .error e
    | .ok (.int n) => .ok (.int n)
    | .ok (.expr e) => .ok (.expr e)
  | .noneUnit => .ok .zero
  | .other d => .error (.unitError (d ++ " is not a valid unit."))

/-- The `.dimension` attribute of an expression: present exactly on
quantities that carry one; `none` models the `AttributeError` caught at
lines 162 and 182. -/
def dimAttr : SymExpr → Option Dim
  | .quantity _ d => d
  | _ => none

/-- The classification stage of `get_dimension` (lines 153-188), applied to
an already-resolved unit: a quantity yields its dimension with `One`
remapped to `Zero`; a power yields `area` / `volume` for a length base with
exponent 2 / 3 and `Zero` otherwise; everything else yields `Zero`;
attribute-access failures degrade to `Zero`. -/
def classifyUnit : UnitObj → Dim
  | .expr (.quantity n d) =>
    match dimAttr (.quantity n d) with
    | some dim => if dim = Dim.one then Dim.zero else dim
    | none => Dim.zero
  | .expr (.pow b e) =>
    match dimAttr b with
    | some db =>
      if db = Dim.length then
        if symEq e (.num (qOfInt 2)) then Dim.area
        else if symEq e (.num (qOfInt 3)) then Dim.volume
        else Dim.zero
      else Dim.zero
    | none => Dim.zero
  | _ => Dim.zero

/-- `get_dimension` (lines 147-188): resolve the argument through
`get_unit` (whose errors propagate), then classify. -/
def get_dimension (reg : List (String × SymExpr)) (unit : UnitInput) :
    Except ResolveErr Dim :=
  match get_unit reg unit with
  | .error e => .error e
  | .ok u => .ok (classifyUnit u)

/-- Python's `float(value)` on a sympy expression: succeeds exactly on
numeric literals; `none` models the `TypeError` caught at line 138. -/
def toFloat? : SymExpr → Option Q
  | .num q => some q
  | _ => none

/-- Errors of the decomposer: the `TypeError` of line 143 naming the
unexpected expression, a Python `IndexError`, or the `ValueError` of
line 225. -/
inductive DecErr
  | typeError (e : SymExpr)
  | indexError
  | valueError (msg : String)

/-- `decompose_expr` (lines 101-145): a power yields magnitude 1 and the
whole power; a product whose first operand converts to a float yields that
float and the remaining operands (one directly, several folded left-to-right
by engine multiplication); a product whose first operand is not numeric
yields 1 and the whole product; anything else raises `TypeError`. -/
def decompose_expr : SymExpr → Except DecErr (Q × SymExpr)
  | .pow b e => .ok (qOfInt 1, .pow b e)
  | .mul [] => .error .indexError
  | .mul (a0 :: rest) =>
    match toFloat? a0 with
    | some v =>
      match rest with
      | [] => .error .indexError
      | [u] => .ok (v, u)
      | u0 :: us => .ok (v, us.foldl engMul u0)
    | none => .ok (qOfInt 1, .mul (a0 :: rest))
  | e => .error (.typeError e)

/-- A numpy array: its shape and its row-major flattened data. A 0-sized
leading axis is the only empty case the array code can reach, and a shape
`[]` stands for a numpy scalar. -/
structure NDArray (α : Type) where
  shape : List ℕ
  data : List α

/-- The element-wise decomposition loop of `decompose_expr_array`
(lines 215-216), propagating the first element's failure. -/
def mapDecompose : List SymExpr → Except DecErr (List (Q × SymExpr))
  | [] => .ok []
  | e :: es =>
    match decompose_expr e with
    | .error er => .error er
    | .ok p =>
      match mapDecompose es with
      | .error er => .error er
      | .ok ps => .ok (p :: ps)

/-- Helper for `np.any(unit[0] == unit)`: walk the flattened unit array,
comparing the element at flat index `i` with the element at offset
`i % rowLen` of the first row, and report whether any comparison holds. -/
def anyEqAt (first : List SymExpr) (rowLen : ℕ) : ℕ → List SymExpr → Bool
  | _, [] => false
  | i, u :: us =>
    (match first[i % rowLen]? with
     | some b => symEq b u
     | none => false) || anyEqAt first rowLen (i + 1) us

/-- The homogeneity test `np.any(unit[0] == unit)` of line 221: `unit[0]` is
the first row (the leading `rowLen` elements of the flattened array, where
`rowLen` is the product of the trailing shape), numpy broadcasts it against
every row, and `np.any` reports whether ANY element-wise comparison holds. -/
def np_any_eq_first (rowLen : ℕ) (units : List SymExpr) : Bool :=
  anyEqAt (units.take rowLen) rowLen 0 units

/-- `decompose_expr_array` (lines 190-225): flatten, decompose every element,
evaluate `unit[0]` (an `IndexError` on an empty leading axis), test
`np.any(unit[0] == unit)`, and on success return the magnitudes (cast to
double) in the original shape together with `unit[0]` — which is the whole
first ROW of the unit array (a scalar only for 1-D input); otherwise raise
the `ValueError` of line 225. -/
def decompose_expr_array (arr : NDArray SymExpr) :
    Except DecErr (NDArray Q × NDArray SymExpr) :=
  match mapDecompose arr.data with
  | .error er => .error er
  | .ok pairs =>
    let values := pairs.map Prod.fst
    let units := pairs.map Prod.snd
    let rowLen := (arr.shape.drop 1).foldl (· * ·) 1
    if arr.shape.headD 1 = 0 then .error .indexError
    else if np_any_eq_first rowLen units then
      .ok (⟨arr.shape, values⟩, ⟨arr.shape.drop 1, units.take rowLen⟩)
    else .error (.valueError "If the input is an array, the units for all values must be equal.")

/-- The expression `3.0 * meter` of the specification's array example. -/
def threeMeters : SymExpr := .mul [.num (qOfInt 3), meter]

/-- The expression `2.0 * second` of the specification's array example. -/
def twoSeconds : SymExpr := .mul [.num (qOfInt 2), second]

/-- The specification's 2×2 array example with one mismatching element. -/
def mixedArray : NDArray SymExpr :=
  ⟨[2, 2], [threeMeters, threeMeters, threeMeters, twoSeconds]⟩

/-- The expression `(meter / second) ** 2` that the left-to-right reduction
of `"m / s ** 2"` actually builds. -/
def mDivSSqResolved : SymExpr :=
  .pow (.mul [meter, .pow second (.num (qOfInt (-1)))]) (.num (qOfInt 2))

/-! ## Helper lemmas -/

/-- A token list made of operator tokens only classifies to an empty operand
sequence (all tokens go to the operator sequence, none raises). -/
theorem classifyTokens_all_operators (reg : List (String × SymExpr)) (ts : List String)
    (h : ∀ t ∈ ts, __OPERATION_LIST__.contains t = true) :
    classifyTokens reg ts = .ok ([], ts) := by
  induction ts with
  | nil => rfl
  | cons t ts ih =>
    have ht := h t (List.mem_cons_self t ts)
    have hts : ∀ x ∈ ts, __OPERATION_LIST__.contains x = true :=
      fun x hx => h x (List.mem_cons_of_mem t hx)
    have htm : t ∈ __OPERATION_LIST__ := by simpa using ht
    simp [classifyTokens, htm, ih hts]

/-- None of the five operator tokens parses as an integer literal. -/
theorem operator_token_not_int (t : String)
    (h : __OPERATION_LIST__.contains t = true) : parseInt? t = none := by
  have hmem : t = "*" ∨ t = "/" ∨ t = "+" ∨ t = "-" ∨ t = "**" := by
    simpa [__OPERATION_LIST__] using h
  rcases hmem with h1 | h1 | h1 | h1 | h1 <;> subst h1 <;> rfl

/-- C1 (code bug evaluation): on the specification's own failing example — a
2×2 array with three elements `3.0 * meter` and one element `2.0 * second` —
`decompose_expr_array` does NOT raise the non-uniform-unit `ValueError`: the
`np.any(unit[0] == unit)` test of line 221 is satisfied as soon as any
element agrees with the broadcast first row (the first row always agrees
with itself), so the call returns the magnitudes together with the first
ROW of units instead of failing. -/
theorem c1_array_unit_check_accepts_mixed_units :
    decompose_expr_array mixedArray =
      .ok (⟨[2, 2], [qOfInt 3, qOfInt 3, qOfInt 3, qOfInt 2]⟩, ⟨[2], [meter, meter]⟩) := rfl

/-- C2 (counterexample): resolving `"m / s ** 2"` by the source's
left-to-right reduction yields `(meter / second) ** 2`, and under the
engine's equality that is NOT equal to `meter * second ** -2` as the claim
states. -/
theorem c2_resolution_counterexample :
    get_unit_from_str __UNITS__ "m / s ** 2" = .ok (.expr mDivSSqResolved)
    ∧ symEq mDivSSqResolved (.mul [meter, .pow second (.num (qOfInt (-2)))]) = false :=
  ⟨rfl, rfl⟩

/-- C2 (amended): resolving `"m / s ** 2"` — seeding the accumulator with
the first operand and applying the operator at index `i - 1` between the
accumulator and the operand at index `i`, left-to-right with no precedence
climbing — yields `(meter / second) ** 2`, which under the engine's equality
equals `meter ** 2 * second ** -2`. -/
theorem c2_left_to_right_resolution :
    get_unit_from_str __UNITS__ "m / s ** 2" = .ok (.expr mDivSSqResolved)
    ∧ symEq mDivSSqResolved
        (.mul [.pow meter (.num (qOfInt 2)), .pow second (.num (qOfInt (-2)))]) = true :=
  ⟨rfl, rfl⟩

/-- C3 (counterexample): `get_dimension` is NOT total — on the string
"banana", which names no registered unit, the resolution step raises
`UnitError` instead of degrading to `Zero`. -/
theorem c3_unknown_unit_raises :
    get_dimension __UNITS__ (.str "banana") =
      .error (.unitError "banana is not a valid unit.") := rfl

/-- C3 (amended): `get_dimension` propagates resolution failures of
`get_unit` (unknown unit names, unrecognized input kinds), but on every
input whose resolution succeeds it returns a dimension and never raises;
in the classification itself any failure to introspect a dimension
attribute degrades to the `Zero` tag (shown for a quantity without the
attribute and for a power whose base has none). -/
theorem c3_classification_total_after_resolution :
    (∀ (reg : List (String × SymExpr)) (input : UnitInput) (u : UnitObj),
        get_unit reg input = .ok u → get_dimension reg input = .ok (classifyUnit u))
    ∧ (∀ (nm : String), classifyUnit (.expr (.quantity nm none)) = Dim.zero)
    ∧ (∀ (b e : SymExpr), dimAttr b = none → classifyUnit (.expr (.pow b e)) = Dim.zero) := by
  refine ⟨?_, ?_, ?_⟩
  · intro reg input u h
    simp only [get_dimension]
    rw [h]
  · intro nm
    rfl
  · intro b e h
    simp [classifyUnit, h]

/-- Witness for C3 (amended), instantiated at the registry of the
specification, the resolvable string "m", a dimensionless-attribute
quantity and a power of a numeric base. -/
theorem c3_classification_total_after_resolution_witness :
    get_dimension __UNITS__ (.str "m") = .ok (classifyUnit (.expr meter))
    ∧ classifyUnit (.expr (.quantity "x" none)) = Dim.zero
    ∧ classifyUnit (.expr (.pow (.num (qOfInt 2)) (.num (qOfInt 2)))) = Dim.zero :=
  ⟨c3_classification_total_after_resolution.1 __UNITS__ (.str "m") (.expr meter) rfl,
   c3_classification_total_after_resolution.2.1 "x",
   c3_classification_total_after_resolution.2.2 (.num (qOfInt 2)) (.num (qOfInt 2)) rfl⟩

/-- C4: for every power expression, `decompose_expr` returns magnitude 1 and
the whole power expression itself as the residual unit, never splitting base
or exponent; in particular on `meter ** 2` it returns `(1, meter ** 2)`. -/
theorem c4_decompose_pow_identity :
    (∀ (b e : SymExpr), decompose_expr (.pow b e) = .ok (qOfInt 1, .pow b e))
    ∧ decompose_expr (.pow meter (.num (qOfInt 2))) =
        .ok (qOfInt 1, .pow meter (.num (qOfInt 2))) :=
  ⟨fun _ _ => rfl, rfl⟩

/-- C5: for every product whose first operand converts to a float,
`decompose_expr` returns that float as the magnitude and, as the residual
unit, the single remaining operand when there is exactly one, or the
left-to-right multiplicative fold of all remaining operands when there are
several. -/
theorem c5_decompose_mul_numeric_head :
    (∀ (a0 : SymExpr) (v : Q) (u : SymExpr), toFloat? a0 = some v →
        decompose_expr (.mul [a0, u]) = .ok (v, u))
    ∧ (∀ (a0 : SymExpr) (v : Q) (u0 : SymExpr) (us : List SymExpr), toFloat? a0 = some v →
        decompose_expr (.mul (a0 :: u0 :: us)) = .ok (v, us.foldl engMul u0)) := by
  constructor
  · intro a0 v u h
    cases a0 with
    | num q =>
      have hv : q = v := by simpa [toFloat?] using h
      subst hv
      rfl
    | quantity a b => exact Option.noConfusion h
    | pow a b => exact Option.noConfusion h
    | mul l => exact Option.noConfusion h
    | add l => exact Option.noConfusion h
  · intro a0 v u0 us h
    cases a0 with
    | num q =>
      have hv : q = v := by simpa [toFloat?] using h
      subst hv
      cases us with
      | nil => rfl
      | cons u1 us1 => rfl
    | quantity a b => exact Option.noConfusion h
    | pow a b => exact Option.noConfusion h
    | mul l => exact Option.noConfusion h
    | add l => exact Option.noConfusion h

/-- Witness for C5 at the specification's example `5.0 * meter`. -/
theorem c5_decompose_mul_numeric_head_witness :
    decompose_expr (.mul [.num (qOfInt 5), meter]) = .ok (qOfInt 5, meter) :=
  c5_decompose_mul_numeric_head.1 (.num (qOfInt 5)) (qOfInt 5) meter rfl

/-- C6: for every product whose first operand does not convert to a float,
`decompose_expr` returns, without raising, magnitude 1 and the entire
original expression as the residual unit. -/
theorem c6_decompose_mul_symbolic_head (a0 : SymExpr) (rest : List SymExpr)
    (h : toFloat? a0 = none) :
    decompose_expr (.mul (a0 :: rest)) = .ok (qOfInt 1, .mul (a0 :: rest)) := by
  cases a0 with
  | num q => exact Option.noConfusion h
  | quantity a b => rfl
  | pow a b => rfl
  | mul l => rfl
  | add l => rfl

/-- Witness for C6 at the fully symbolic product `meter * second`. -/
theorem c6_decompose_mul_symbolic_head_witness :
    decompose_expr (.mul [meter, second]) = .ok (qOfInt 1, .mul [meter, second]) :=
  c6_decompose_mul_symbolic_head meter [second] rfl

/-- C7: for every power expression handed to `get_dimension`, when the base
carries a dimension attribute equal to length the result is `area` for
exponent 2, `volume` for exponent 3 and `Zero` for any other exponent; when
the base's dimension attribute is absent or differs from length the result
is `Zero`. -/
theorem c7_dimension_of_power (reg : List (String × SymExpr)) (b e : SymExpr) :
    (dimAttr b = some Dim.length →
      get_dimension reg (.expr (.pow b e)) =
        .ok (if symEq e (.num (qOfInt 2)) then Dim.area
             else if symEq e (.num (qOfInt 3)) then Dim.volume
             else Dim.zero))
    ∧ (dimAttr b ≠ some Dim.length →
      get_dimension reg (.expr (.pow b e)) = .ok Dim.zero) := by
  constructor
  · intro h
    show Except.ok (classifyUnit (.expr (.pow b e))) = _
    simp [classifyUnit, h]
  · intro h
    show Except.ok (classifyUnit (.expr (.pow b e))) = _
    rcases hd : dimAttr b with _ | db
    · simp [classifyUnit, hd]
    · have hne : db ≠ Dim.length := fun hh => h (hh ▸ hd)
      simp [classifyUnit, hd, hne]

/-- Witness for C7 at `meter ** 2`, whose dimension is `area`. -/
theorem c7_dimension_of_power_witness :
    get_dimension __UNITS__ (.expr (.pow meter (.num (qOfInt 2)))) = .ok Dim.area := by
  have h := (c7_dimension_of_power __UNITS__ meter (.num (qOfInt 2))).1 rfl
  exact h.trans (by rfl)

/-- C9: for every string whose tokens are all operator tokens (which covers
the empty string, whitespace-only strings and operator-only strings —
no operand token at all), `get_unit_from_str` fails with the out-of-bounds
`IndexError` of reading `unit_list[0]`, not with a `UnitError`. -/
theorem c9_no_operand_index_error (reg : List (String × SymExpr)) (s : String)
    (h : ∀ t ∈ tokenize s, __OPERATION_LIST__.contains t = true) :
    get_unit_from_str reg s = .error .indexError := by
  unfold get_unit_from_str
  rw [classifyTokens_all_operators reg (tokenize s) h]

/-- Witness for C9 at the operator-only string "* /". -/
theorem c9_no_operand_index_error_witness :
    get_unit_from_str __UNITS__ "* /" = .error .indexError :=
  c9_no_operand_index_error __UNITS__ "* /" (by decide)

/-- C10: for every string whose tokenization is a single integer-literal
token, `get_unit_from_str` returns the plain integer value of that token,
not a symbolic unit expression. -/
theorem c10_single_integer_token (reg : List (String × SymExpr)) (s t : String) (n : ℤ)
    (htok : tokenize s = [t]) (hint : parseInt? t = some n) :
    get_unit_from_str reg s = .ok (.int n) := by
  unfold get_unit_from_str
  rw [htok]
  have htm : t ∉ __OPERATION_LIST__ := by
    intro hm
    have hcc : __OPERATION_LIST__.contains t = true := by simpa using hm
    rw [operator_token_not_int t hcc] at hint
    exact Option.noConfusion hint
  simp [classifyTokens, reduceUnits, htm, hint]

/-- Witness for C10 at the string "5". -/
theorem c10_single_integer_token_witness :
    get_unit_from_str __UNITS__ "5" = .ok (.int 5) :=
  c10_single_integer_token __UNITS__ "5" "5" 5 rfl rfl
